import Mathlib

/-!
Shallow embedding of `applehealth_healthkit_llm_query.py`.

The script is a sequential pipeline: discover `*.csv` / `*.gpx` / `*.fit`
files in a directory, summarize each one into a Python dict, render the
summaries into a single prompt string, and stream the prompt to a local
Ollama model.

Modelling conventions used throughout this file:
* Python dicts become insertion-ordered association lists
  (`List (String × _)`); assignment `d[k] = v` is `setKey` (replace in
  place when the key exists, append otherwise), and subscript access
  `d[k]` is `Except`-valued (`KeyError` on a missing key) while
  `d.get(k)` is `Option`-valued.
* The values occurring in this program are stratified: summaries map
  keys to scalars, lists of scalars, dicts of scalars (per-column stats,
  sample rows) or lists of such dicts.  `Scalar` / `SVal` capture exactly
  that universe.
* Python floats are modelled as exact rationals (`Rat`); `floatStr`
  reproduces `str(float)` for values with a finite decimal expansion
  (the only ones any claim renders).  `numpy` NaN (produced by pandas
  aggregations over empty columns) is the dedicated scalar `Scalar.nan`.
* `datetime` values carried by GPX points are kept opaque as scalars;
  `str(...)` of any scalar is `scalarStr`.
* The external parsers (pandas, gpxpy, fitparse, ollama) are modelled by
  their already-parsed results: a `DataFrame` of typed columns, a
  `GpxFile` of tracks/segments/points, a list of FIT messages, and a
  `StreamOutcome` describing how the model stream behaved.
-/

/-! ## Python-value universe -/

/-- A Python scalar value as it occurs in this program: a string, an
`int`, a `float` (kept exact as a rational), numpy's NaN, or `None`. -/
inductive Scalar where
  | s : String → Scalar
  | i : Int → Scalar
  | f : Rat → Scalar
  | nan : Scalar
  | none_ : Scalar
deriving DecidableEq, Repr

/-- A value stored in a summary dict: a scalar, a list of scalars
(column/field name lists), a dict of scalars (per-column stats triples,
single sample rows), or a list of scalar dicts (sample rows/points). -/
inductive SVal where
  | sc : Scalar → SVal
  | list : List Scalar → SVal
  | dict : List (String × Scalar) → SVal
  | dlist : List (List (String × Scalar)) → SVal
deriving DecidableEq, Repr

/-- A summary record: a Python dict in insertion order. -/
abbrev Summary := List (String × SVal)

/-- Python dict assignment `d[k] = v`: replace the value in place if the
key is present, otherwise append the new binding at the end. -/
def setKey {α : Type} : List (String × α) → String → α → List (String × α)
  | [], k, v => [(k, v)]
  | (k0, v0) :: rest, k, v =>
    if k0 = k then (k0, v) :: rest else (k0, v0) :: setKey rest k v

/-- Lookup of a key in a Python dict (first match; dicts built with
`setKey` never hold duplicate keys). -/
def lookupKey {α : Type} : List (String × α) → String → Option α
  | [], _ => none
  | (k0, v0) :: rest, k => if k0 = k then some v0 else lookupKey rest k

/-- Python dict subscript `d[k]`: raises `KeyError` when absent. -/
def pyGetSummary (d : Summary) (k : String) : Except String SVal :=
  match lookupKey d k with
  | some v => .ok v
  | none => .error ("KeyError: " ++ k)

/-- Python dict subscript on a scalar dict. -/
def pyGetScalar (d : List (String × Scalar)) (k : String) : Except String Scalar :=
  match lookupKey d k with
  | some v => .ok v
  | none => .error ("KeyError: " ++ k)

/-! ## Rendering (`str` / `repr`) -/

/-- Decimal digits of the fractional part `r / d` (`0 < r < d`), by long
division, with fuel; every value this program renders terminates well
within the fuel. -/
def fracDigits : Nat → Nat → Nat → String
  | 0, _, _ => ""
  | _, 0, _ => ""
  | fuel + 1, r, d => toString (r * 10 / d) ++ fracDigits fuel (r * 10 % d) d

/-- `str` of a Python float, for floats whose exact value has a finite
decimal expansion (e.g. `65.0`, `-0.5`); such values print the same
under Python's shortest-round-trip repr. -/
def floatStr (q : Rat) : String :=
  let sign := if q < 0 then "-" else ""
  let a := q.num.natAbs
  let d := q.den
  sign ++ toString (a / d) ++ "." ++ (if a % d = 0 then "0" else fracDigits 64 (a % d) d)

/-- Python `str` of a scalar. -/
def scalarStr : Scalar → String
  | .s str => str
  | .i n => toString n
  | .f q => floatStr q
  | .nan => "nan"
  | .none_ => "None"

/-- Python `repr` of a scalar (as used inside list/dict rendering);
strings are quoted.  Assumes strings contain no quotes or escapes, true
of every string this program ever puts inside a container. -/
def scalarRepr : Scalar → String
  | .s str => "\x27" ++ str ++ "\x27"
  | .i n => toString n
  | .f q => floatStr q
  | .nan => "nan"
  | .none_ => "None"

/-- Python `repr`/`str` of a dict of scalars. -/
def dictRepr (d : List (String × Scalar)) : String :=
  "\x7b" ++ String.intercalate ", "
    (d.map (fun kv => "\x27" ++ kv.1 ++ "\x27: " ++ scalarRepr kv.2)) ++ "\x7d"

/-- Python `str` of a summary value, as interpolated by f-strings. -/
def svalStr : SVal → String
  | .sc x => scalarStr x
  | .list xs => "[" ++ String.intercalate ", " (xs.map scalarRepr) ++ "]"
  | .dict d => dictRepr d
  | .dlist ds => "[" ++ String.intercalate ", " (ds.map dictRepr) ++ "]"

/-- `os.path.basename`: the part after the last `/` (the whole name
when there is no separator). -/
def basename (p : String) : String :=
  String.mk (p.toList.foldl (fun acc c => if c = '/' then [] else acc ++ [c]) [])

/-- Python `pat in s` substring test. -/
def containsSub (s pat : String) : Bool :=
  (s.toList.tails).any (fun t => pat.toList.isPrefixOf t)

/-! ## Tabular summarizer (`summarize_csv`)

`pd.read_csv` is external; its result is modelled as a `DataFrame` of
named, typed columns (pandas dtype inference: all-integer columns are
numeric `int64`, anything else is `object`, i.e. strings here).  Columns
are assumed distinct-by-name, which `read_csv` guarantees by mangling
duplicate headers. -/

/-- One parsed column: numeric (`int64`) or `object` (strings). -/
inductive ColData where
  | ints : List Int → ColData
  | strs : List String → ColData
deriving DecidableEq, Repr

/-- A parsed table. -/
structure DataFrame where
  cols : List (String × ColData)
deriving DecidableEq, Repr

/-- Row count of a column. -/
def colLen : ColData → Nat
  | .ints l => l.length
  | .strs l => l.length

/-- `len(df)`: the number of rows (0 for a table with no columns). -/
def dfLen (df : DataFrame) : Nat :=
  match df.cols with
  | [] => 0
  | c :: _ => colLen c.2

/-- `df[name]`: the (first) column with the given name. -/
def dfColumn (df : DataFrame) (name : String) : ColData :=
  ((df.cols.find? (fun c => c.1 = name)).map (fun c => c.2)).getD (.strs [])

/-- Python string comparison `a < b`: lexicographic by code point, on
char lists. -/
def strLtb : List Char → List Char → Bool
  | [], [] => false
  | [], _ :: _ => true
  | _ :: _, [] => false
  | c :: a, d :: b =>
    if c.toNat < d.toNat then true
    else if d.toNat < c.toNat then false
    else strLtb a b

/-- `Series.min()`: NaN on an empty column, else the least element
(numeric order for ints, pairwise Python string comparison for object
columns). -/
def colMinOf : ColData → Scalar
  | .ints [] => .nan
  | .ints (x :: xs) => .i (xs.foldl min x)
  | .strs [] => .nan
  | .strs (x :: xs) =>
    .s (xs.foldl (fun a b => if strLtb b.toList a.toList then b else a) x)

/-- `Series.max()`. -/
def colMaxOf : ColData → Scalar
  | .ints [] => .nan
  | .ints (x :: xs) => .i (xs.foldl max x)
  | .strs [] => .nan
  | .strs (x :: xs) =>
    .s (xs.foldl (fun a b => if strLtb a.toList b.toList then b else a) x)

/-- `Series.mean()` of a numeric column: NaN when empty, else the exact
rational value of the float `sum / count`. -/
def colMeanOf : ColData → Scalar
  | .ints [] => .nan
  | .ints (x :: xs) => .f (((x :: xs).sum : Rat) / ((x :: xs).length : Rat))
  | .strs _ => .nan

/-- Membership of a column in `df.select_dtypes(include='number')`. -/
def isNumericCol : ColData → Bool
  | .ints _ => true
  | .strs _ => false

/-- The cell of a column at a row index (indices stay in range in every
use; the NaN default is never reached). -/
def colCell (c : ColData) (r : Nat) : Scalar :=
  match c with
  | .ints l => match l[r]? with | some v => .i v | none => .nan
  | .strs l => match l[r]? with | some v => .s v | none => .nan

/-- One row of `df.head(10).to_dict(orient='records')`: column → cell,
in column order. -/
def dfRowDict (df : DataFrame) (r : Nat) : List (String × Scalar) :=
  df.cols.map (fun c => (c.1, colCell c.2 r))

/-- `summarize_csv`: builds the summary dict exactly as the source does,
one assignment at a time — `file`, `total_records`, `columns`,
`date_range` (min/max of a column literally named `Date`, else `N/A`),
one stats dict per numeric column, then `sample`. -/
def summarize_csv (file_path : String) (df : DataFrame) : Summary :=
  let s := setKey ([] : Summary) "file" (.sc (.s (basename file_path)))
  let s := setKey s "total_records" (.sc (.i (dfLen df)))
  let s := setKey s "columns" (.list (df.cols.map (fun c => Scalar.s c.1)))
  let s :=
    if df.cols.any (fun c => c.1 = "Date") then
      setKey s "date_range"
        (.sc (.s (scalarStr (colMinOf (dfColumn df "Date")) ++ " to "
                  ++ scalarStr (colMaxOf (dfColumn df "Date")))))
    else
      setKey s "date_range" (.sc (.s "N/A"))
  let s :=
    (df.cols.filter (fun c => isNumericCol c.2)).foldl
      (fun acc c =>
        setKey acc c.1
          (.dict [("mean", colMeanOf c.2), ("min", colMinOf c.2), ("max", colMaxOf c.2)]))
      s
  setKey s "sample" (.dlist ((List.range (min 10 (dfLen df))).map (dfRowDict df)))

/-! ## GPX summarizer (`summarize_gpx`)

`gpxpy.parse` is external; its result is modelled as tracks containing
segments containing points.  A point's `time`, `latitude`, `longitude`
and `elevation` are scalars (`datetime`s stay opaque; missing values are
`None`); each extension element has children with a tag and a text. -/

/-- A child element of a GPX extension: tag and text. -/
structure GpxExtChild where
  tag : String
  text : Scalar
deriving DecidableEq, Repr

/-- A parsed GPX track point. -/
structure GpxPoint where
  time : Scalar
  latitude : Scalar
  longitude : Scalar
  elevation : Scalar
  extensions : List (List GpxExtChild)
deriving Repr

/-- A GPX segment. -/
structure GpxSegment where
  points : List GpxPoint
deriving Repr

/-- A GPX track. -/
structure GpxTrack where
  segments : List GpxSegment
deriving Repr

/-- A parsed GPX file. -/
structure GpxFile where
  tracks : List GpxTrack
deriving Repr

/-- The `pt` dict built for one point: `time`/`latitude`/`longitude`/
`elevation`, then `heart_rate` from any extension child whose tag
contains `hr` case-insensitively (last match wins). -/
def mkPt (p : GpxPoint) : List (String × Scalar) :=
  let pt := [("time", p.time), ("latitude", p.latitude),
             ("longitude", p.longitude), ("elevation", p.elevation)]
  p.extensions.foldl
    (fun pt ext =>
      ext.foldl
        (fun pt child =>
          if containsSub child.tag.toLower "hr" then setKey pt "heart_rate" child.text
          else pt)
        pt)
    pt

/-- The `points` list accumulated by the triple loop over
tracks → segments → points. -/
def gpxPoints (g : GpxFile) : List (List (String × Scalar)) :=
  g.tracks.foldl
    (fun acc track =>
      track.segments.foldl
        (fun acc segment =>
          segment.points.foldl (fun acc point => acc ++ [mkPt point]) acc)
        acc)
    []

/-- `summarize_gpx`: dict literal with `file`, `type`, `total_points`,
`start_time` / `end_time` (`str(points[0/−1]['time'])` when points
exist, else `N/A`) and the first 10 points. -/
def summarize_gpx (file_path : String) (g : GpxFile) : Summary :=
  let points := gpxPoints g
  [("file", .sc (.s (basename file_path))),
   ("type", .sc (.s "gpx")),
   ("total_points", .sc (.i points.length)),
   ("start_time", .sc (.s (match points with
      | [] => "N/A"
      | p :: _ => scalarStr ((lookupKey p "time").getD .none_)))),
   ("end_time", .sc (.s (match points.getLast? with
      | none => "N/A"
      | some p => scalarStr ((lookupKey p "time").getD .none_)))),
   ("sample_points", .dlist (points.take 10))]

/-! ## FIT summarizer (`summarize_fit`)

`fitparse.FitFile` is external; the parsed file is modelled as a list of
typed messages, each carrying named data fields. -/

/-- One decoded FIT message: its message type and its data fields. -/
structure FitMsg where
  kind : String
  fields : List (String × Scalar)
deriving DecidableEq, Repr

/-- `summarize_fit`: keeps only `record`-type messages, turns each into
a name → value dict (duplicate field names overwrite), and reports the
count, the first record's field names (empty list when there are no
records), and the first 10 records. -/
def summarize_fit (file_path : String) (msgs : List FitMsg) : Summary :=
  let records :=
    (msgs.filter (fun m => m.kind = "record")).map
      (fun m => m.fields.foldl (fun rec kv => setKey rec kv.1 kv.2)
                  ([] : List (String × Scalar)))
  [("file", .sc (.s (basename file_path))),
   ("type", .sc (.s "fit")),
   ("total_records", .sc (.i records.length)),
   ("fields", .list (match records with
      | [] => []
      | r :: _ => r.map (fun kv => Scalar.s kv.1))),
   ("sample_records", .dlist (records.take 10))]

/-! ## Prompt builder (`build_llm_prompt`)

`datetime.now().strftime('%Y-%m-%d')` is an input (`today`).  Summary
subscripting can raise `KeyError`, so the builder is `Except`-valued;
every summary the pipeline actually produces renders without error. -/

/-- The 40-character rule line `"=" * 40`. -/
def sep40 : String := String.mk (List.replicate 40 '=')

/-- The four fixed default analysis prompts appended when no user query
is given. -/
def defaultAnalysisTail : String :=
  "Please provide a comprehensive analysis including:\n1. Notable patterns or trends\n2. Unusual findings\n3. Actionable health insights\n4. Areas for improvement\n"

/-- The `for col in summary` loop of the tabular branch: for every entry
whose value is a dict, emit `col: mean=…, min=…, max=…` (subscripting
the dict, so a missing `mean`/`min`/`max` key raises `KeyError`). -/
def statsLoop : List (String × SVal) → Except String String
  | [] => .ok ""
  | (k, v) :: rest =>
    match v with
    | .dict d => do
      let m ← pyGetScalar d "mean"
      let mn ← pyGetScalar d "min"
      let mx ← pyGetScalar d "max"
      let tail ← statsLoop rest
      pure (k ++ ": mean=" ++ scalarStr m ++ ", min=" ++ scalarStr mn
            ++ ", max=" ++ scalarStr mx ++ "\n" ++ tail)
    | _ => statsLoop rest

/-- The per-summary block of `build_llm_prompt`: the `File:` line, then
the GPX, FIT or tabular branch chosen by `summary.get('type')`, then the
separator line. -/
def renderSummary (summary : Summary) : Except String String := do
  let fv ← pyGetSummary summary "file"
  let base := "File: " ++ svalStr fv ++ "\n"
  let body ←
    if lookupKey summary "type" = some (.sc (.s "gpx")) then do
      let tp ← pyGetSummary summary "total_points"
      let st ← pyGetSummary summary "start_time"
      let en ← pyGetSummary summary "end_time"
      let sp ← pyGetSummary summary "sample_points"
      pure ("Type: GPX\nTotal Points: " ++ svalStr tp ++ "\nStart: " ++ svalStr st
            ++ "\nEnd: " ++ svalStr en ++ "\nSample Points: " ++ svalStr sp ++ "\n")
    else if lookupKey summary "type" = some (.sc (.s "fit")) then do
      let tr ← pyGetSummary summary "total_records"
      let fl ← pyGetSummary summary "fields"
      let sr ← pyGetSummary summary "sample_records"
      pure ("Type: FIT\nTotal Records: " ++ svalStr tr ++ "\nFields: " ++ svalStr fl
            ++ "\nSample Records: " ++ svalStr sr ++ "\n")
    else do
      let tr ← pyGetSummary summary "total_records"
      let cols ← pyGetSummary summary "columns"
      let dr ← pyGetSummary summary "date_range"
      let stats ← statsLoop summary
      let samp ← pyGetSummary summary "sample"
      pure ("Total Records: " ++ svalStr tr ++ "\nColumns: " ++ svalStr cols
            ++ "\nDate Range: " ++ svalStr dr ++ "\n" ++ stats
            ++ "Sample Rows:\n" ++ svalStr samp ++ "\n")
  pure (base ++ body ++ "\n" ++ sep40 ++ "\n")

/-- `build_llm_prompt`: the dated header, one block per summary, then
either the user's query verbatim (when truthy, i.e. non-empty) or the
four default analysis prompts. -/
def build_llm_prompt (summaries : List Summary) (user_query : Option String)
    (today : String) : Except String String := do
  let header := "Today\x27s date is " ++ today
    ++ ". Always use this as the current date.\n\nAnalyze this Apple Health CSV data and provide insights.\n\n"
  let body ← summaries.foldlM
    (fun acc summary => do
      let block ← renderSummary summary
      pure (acc ++ block))
    header
  match user_query with
  | some q => if q = "" then pure (body ++ defaultAnalysisTail)
              else pure (body ++ "\nUser Query: " ++ q ++ "\n")
  | none => pure (body ++ defaultAnalysisTail)

/-! ## Model client (`query_ollama`)

The ollama stream is external; its behaviour is an input.  Either the
`ollama.chat` call itself raises, or it yields a sequence of chunks and
then either finishes cleanly or raises mid-stream. -/

/-- One streamed chunk: optional `response` field and optional
`message.content` field. -/
structure Chunk where
  response : Option String
  messageContent : Option String
deriving DecidableEq, Repr

/-- `chunk.get('response') or (chunk.get('message') or {}).get('content')
or ''` — Python `or` falls through on `None` and on the empty string. -/
def chunkText (c : Chunk) : String :=
  let a := c.response.getD ""
  if a = "" then c.messageContent.getD "" else a

/-- Behaviour of one model call: failure before any chunk, or a chunk
sequence followed by clean completion (`none`) or an exception
(`some e`). -/
inductive StreamOutcome where
  | failAtStart (e : String)
  | stream (chunks : List Chunk) (err : Option String)
deriving DecidableEq, Repr

/-- `query_ollama`: collects the non-empty texts of the chunks received
before any failure; the `except` clause swallows every exception, so the
joined text is returned in all cases. -/
def query_ollama (outcome : StreamOutcome) : String :=
  let collected :=
    match outcome with
    | .failAtStart _ => []
    | .stream chunks _ => (chunks.map chunkText).filter (fun t => t ≠ "")
  String.join collected

/-! ## `main`: discovery, dispatch, exit behaviour

`glob.glob(dir + '/*.ext')` on a directory listing is modelled as a
filter: a name matches when it does not start with a dot (glob hides
dotfiles) and ends with the (case-sensitive) extension.  The parsed
content of each file, and the model stream, are supplied by an
environment. -/

/-- Whether `glob` pattern `*<pat>` matches a directory entry. -/
def globMatch (f : String) (pat : List Char) : Bool :=
  match f.toList with
  | [] => false
  | c :: _ => (c != '.') && pat.isSuffixOf f.toList

/-- `os.path.splitext(f)[1]` on a separator-free name as a char list:
the extension starts at the last dot, unless every character before it
is itself a dot (then there is no extension). -/
def extSplit (cs : List Char) : List Char :=
  match cs.reverse.drop ((cs.reverse.takeWhile (fun c => c != '.')).length) with
  | [] => []
  | _ :: before =>
    if before.any (fun c => c != '.') then
      '.' :: (cs.reverse.takeWhile (fun c => c != '.')).reverse
    else []

/-- `os.path.splitext(f)[1].lower()` as a char list. -/
def extLower (f : String) : List Char :=
  (extSplit f.toList).map Char.toLower

/-- The candidate files: the three glob patterns in order
(`*.csv`, `*.gpx`, `*.fit`), each in directory order. -/
def dataFiles (dirFiles : List String) : List String :=
  dirFiles.filter (fun f => globMatch f ".csv".toList)
    ++ dirFiles.filter (fun f => globMatch f ".gpx".toList)
    ++ dirFiles.filter (fun f => globMatch f ".fit".toList)

/-- Everything external that one run of the program observes: the
directory listing, the parsed content each library would return for
each file, and the model-stream behaviour. -/
structure Env where
  dirFiles : List String
  csvData : String → DataFrame
  gpxData : String → GpxFile
  fitData : String → List FitMsg
  modelStream : StreamOutcome

/-- The dispatch step of `main`'s loop: lowercased extension chooses a
summarizer; `none` is the `Unsupported file type` branch. -/
def dispatchFile (env : Env) (f : String) : Option Summary :=
  if extLower f = ".csv".toList then some (summarize_csv f (env.csvData f))
  else if extLower f = ".gpx".toList then some (summarize_gpx f (env.gpxData f))
  else if extLower f = ".fit".toList then some (summarize_fit f (env.fitData f))
  else none

/-- The summaries `main` accumulates, in discovery order (unsupported
files are skipped with a console message only). -/
def summariesList (env : Env) : List Summary :=
  (dataFiles env.dirFiles).filterMap (dispatchFile env)

/-- Total dispatch companion: the summary a supported file produces. -/
def summarizeByExt (env : Env) (f : String) : Summary :=
  if extLower f = ".csv".toList then summarize_csv f (env.csvData f)
  else if extLower f = ".gpx".toList then summarize_gpx f (env.gpxData f)
  else summarize_fit f (env.fitData f)

/-- Observable events of a run, in order. -/
inductive Event where
  | summarizedFile (f : String)
  | unsupportedFile (f : String)
  | ollamaCalled (prompt : String)
deriving DecidableEq, Repr

/-- Terminal state of a run. -/
inductive MainOut where
  | exitNoFiles
  | exitNoSummaries
  | crashed (e : String)
  | completed (summaries : List Summary) (response : String)
deriving DecidableEq, Repr

/-- The process exit status each terminal state produces (`sys.exit(1)`
for the two explicit failure exits, 1 for an uncaught exception, 0 after
streaming — even when the model call failed internally). -/
def exitCode : MainOut → Nat
  | .exitNoFiles => 1
  | .exitNoSummaries => 1
  | .crashed _ => 1
  | .completed _ _ => 0

/-- The source's `main` (named `mainRun` here since `main` is reserved):
glob the three patterns, exit 1 when nothing matched, summarize each
file by extension, exit 1 when no summaries were produced, else build
the prompt and query Ollama. -/
def mainRun (env : Env) (query : Option String) (today : String) :
    MainOut × List Event :=
  let files := dataFiles env.dirFiles
  if files.isEmpty then (.exitNoFiles, [])
  else
    let evs := files.map (fun f =>
      match dispatchFile env f with
      | some _ => Event.summarizedFile f
      | none => Event.unsupportedFile f)
    let summaries := summariesList env
    if summaries.isEmpty then (.exitNoSummaries, evs)
    else
      match build_llm_prompt summaries query today with
      | .error e => (.crashed e, evs)
      | .ok p =>
        (.completed summaries (query_ollama env.modelStream), evs ++ [.ollamaCalled p])

/-! ## Claim-side statement of the stats-rendering rule (for comparison
with `statsLoop`): one line per mapping-valued entry, nothing for
scalar-valued entries. -/

/-- The stats block as the specification words it: for each entry whose
value is a mapping, the line `col: mean=…, min=…, max=…`; nothing for
any other entry. -/
def statsSpec (s : List (String × SVal)) : String :=
  String.join (s.map (fun kv =>
    match kv.2 with
    | .dict d =>
      kv.1 ++ ": mean=" ++ scalarStr ((lookupKey d "mean").getD .nan)
        ++ ", min=" ++ scalarStr ((lookupKey d "min").getD .nan)
        ++ ", max=" ++ scalarStr ((lookupKey d "max").getD .nan) ++ "\n"
    | _ => ""))

/-! ## Concrete inputs used by closed theorems -/

/-- The parsed table of the end-to-end scenario CSV
(`Date,HR` = `2024-01-01,60 / 2024-01-02,70 / 2024-01-03,65`). -/
def dfC2 : DataFrame :=
  ⟨[("Date", .strs ["2024-01-01", "2024-01-02", "2024-01-03"]),
    ("HR", .ints [60, 70, 65])]⟩

/-- A directory holding exactly that one CSV file. -/
def envC2 : Env :=
  { dirFiles := ["health.csv"],
    csvData := fun _ => dfC2,
    gpxData := fun _ => ⟨[]⟩,
    fitData := fun _ => [],
    modelStream := .stream [] none }

/-- A tabular summary whose entry `x` holds a mapping that is not a
stats triple (no `mean` key); the scalar framing fields are present so
rendering reaches the stats loop. -/
def c6Bad : Summary :=
  [("file", .sc (.s "f")), ("total_records", .sc (.i 1)),
   ("columns", .list []), ("date_range", .sc (.s "N/A")),
   ("x", .dict [("foo", .i 1)]), ("sample", .dlist [])]

/-- A one-row table whose numeric column is named `type`. -/
def c8Df : DataFrame := ⟨[("type", .ints [1])]⟩

/-- A one-row table `[total_records, B, Date]` whose numeric column is
named `total_records`. -/
def c1Df : DataFrame :=
  ⟨[("total_records", .ints [5]), ("B", .strs ["x"]),
    ("Date", .strs ["2024-01-01"])]⟩

/-- A directory containing only unsupported extensions. -/
def envC9 : Env :=
  { dirFiles := ["notes.txt", "irrelevant.pdf"],
    csvData := fun _ => ⟨[]⟩,
    gpxData := fun _ => ⟨[]⟩,
    fitData := fun _ => [],
    modelStream := .stream [] none }

/-- A well-formed tabular summary fragment: one stats mapping and one
scalar field. -/
def c6Good : Summary :=
  [("HR", .dict [("mean", .f 65), ("min", .i 60), ("max", .i 70)]),
   ("total_records", .sc (.i 3))]

/-- A directory holding exactly one FIT file with no messages. -/
def envC5 : Env :=
  { dirFiles := ["a.fit"],
    csvData := fun _ => ⟨[]⟩,
    gpxData := fun _ => ⟨[]⟩,
    fitData := fun _ => [],
    modelStream := .failAtStart "connection refused" }

/-- The summary `summarize_csv` produces for the scenario CSV, with the
mean written as its value `65`. -/
def csvSummaryC2 : Summary :=
  [("file", .sc (.s "health.csv")),
   ("total_records", .sc (.i 3)),
   ("columns", .list [.s "Date", .s "HR"]),
   ("date_range", .sc (.s "2024-01-01 to 2024-01-03")),
   ("HR", .dict [("mean", .f 65), ("min", .i 60), ("max", .i 70)]),
   ("sample", .dlist
     [[("Date", .s "2024-01-01"), ("HR", .i 60)],
      [("Date", .s "2024-01-02"), ("HR", .i 70)],
      [("Date", .s "2024-01-03"), ("HR", .i 65)]])]

/-! ## Dict lemmas -/

theorem lookupKey_setKey {α : Type} (d : List (String × α)) (k k' : String) (v : α) :
    lookupKey (setKey d k v) k' = if k' = k then some v else lookupKey d k' := by
  induction d with
  | nil =>
    show lookupKey [(k, v)] k' = _
    by_cases h : k' = k
    · simp [lookupKey, h]
    · have h2 : ¬ k = k' := fun hh => h hh.symm
      simp [lookupKey, h, h2]
  | cons kv rest ih =>
    obtain ⟨k0, v0⟩ := kv
    by_cases h0 : k0 = k
    · rw [show setKey ((k0, v0) :: rest) k v = (k0, v) :: rest by simp [setKey, h0]]
      by_cases h : k' = k
      · have h1 : k0 = k' := h0.trans h.symm
        simp [lookupKey, h1, h]
      · have h1 : ¬ k0 = k' := fun hh => h (hh.symm.trans h0)
        simp [lookupKey, h1, h]
    · rw [show setKey ((k0, v0) :: rest) k v = (k0, v0) :: setKey rest k v by
        simp [setKey, h0]]
      by_cases h1 : k0 = k'
      · have h2 : ¬ k' = k := fun hh => h0 (h1.trans hh)
        simp [lookupKey, h1, h2]
      · simp [lookupKey, h1, ih]

theorem lookupKey_statsFold (cols : List (String × ColData)) (s0 : Summary) (k : String)
    (h : ∀ c ∈ cols, c.1 ≠ k) :
    lookupKey
      (cols.foldl
        (fun acc c =>
          setKey acc c.1
            (.dict [("mean", colMeanOf c.2), ("min", colMinOf c.2), ("max", colMaxOf c.2)]))
        s0) k
      = lookupKey s0 k := by
  induction cols generalizing s0 with
  | nil => rfl
  | cons c cs ih =>
    rw [List.foldl_cons, ih _ (fun c' hc' => h c' (List.mem_cons_of_mem _ hc')),
      lookupKey_setKey]
    have : ¬ k = c.1 := fun hk => h c (List.mem_cons_self _ _) hk.symm
    simp [this]

/-! ## Fold-min/max lemmas (the independently-stated statistics) -/

theorem foldl_min_mem {α : Type} [LinearOrder α] (x : α) (xs : List α) :
    xs.foldl min x ∈ x :: xs := by
  induction xs generalizing x with
  | nil => simp
  | cons y ys ih =>
    rw [List.foldl_cons]
    rcases List.mem_cons.mp (ih (min x y)) with h | h
    · rcases min_choice x y with hm | hm
      · rw [h, hm]; exact List.mem_cons_self _ _
      · rw [h, hm]; exact List.mem_cons_of_mem _ (List.mem_cons_self _ _)
    · exact List.mem_cons_of_mem _ (List.mem_cons_of_mem _ h)

theorem foldl_min_le {α : Type} [LinearOrder α] (x : α) (xs : List α) :
    ∀ y ∈ x :: xs, xs.foldl min x ≤ y := by
  induction xs generalizing x with
  | nil =>
    intro y hy
    rw [List.mem_singleton] at hy
    exact hy ▸ le_refl _
  | cons z zs ih =>
    intro y hy
    rw [List.foldl_cons]
    rcases List.mem_cons.mp hy with h | h
    · exact h ▸ (ih (min x z) _ (List.mem_cons_self _ _)).trans (min_le_left _ _)
    · rcases List.mem_cons.mp h with h2 | h2
      · exact h2 ▸ (ih (min x z) _ (List.mem_cons_self _ _)).trans (min_le_right _ _)
      · exact ih (min x z) y (List.mem_cons_of_mem _ h2)

theorem foldl_max_mem {α : Type} [LinearOrder α] (x : α) (xs : List α) :
    xs.foldl max x ∈ x :: xs := by
  induction xs generalizing x with
  | nil => simp
  | cons y ys ih =>
    rw [List.foldl_cons]
    rcases List.mem_cons.mp (ih (max x y)) with h | h
    · rcases max_choice x y with hm | hm
      · rw [h, hm]; exact List.mem_cons_self _ _
      · rw [h, hm]; exact List.mem_cons_of_mem _ (List.mem_cons_self _ _)
    · exact List.mem_cons_of_mem _ (List.mem_cons_of_mem _ h)

theorem foldl_max_ge {α : Type} [LinearOrder α] (x : α) (xs : List α) :
    ∀ y ∈ x :: xs, y ≤ xs.foldl max x := by
  induction xs generalizing x with
  | nil =>
    intro y hy
    rw [List.mem_singleton] at hy
    exact hy ▸ le_refl _
  | cons z zs ih =>
    intro y hy
    rw [List.foldl_cons]
    rcases List.mem_cons.mp hy with h | h
    · rw [h]
      exact (le_max_left x z).trans (ih (max x z) _ (List.mem_cons_self _ _))
    · rcases List.mem_cons.mp h with h2 | h2
      · rw [h2]
        exact (le_max_right x z).trans (ih (max x z) _ (List.mem_cons_self _ _))
      · exact ih (max x z) y (List.mem_cons_of_mem _ h2)

/-! ## String-join lemmas -/

theorem join_cons (s : String) (l : List String) :
    String.join (s :: l) = s ++ String.join l := by
  have H : ∀ (l : List String) (a : String),
      l.foldl (fun r t => r ++ t) a = a ++ String.join l := by
    intro l
    induction l with
    | nil => intro a; simp [String.join, String.append_empty]
    | cons t ts ih =>
      intro a
      show (ts.foldl (fun r t => r ++ t) (a ++ t)) = a ++ String.join (t :: ts)
      rw [ih (a ++ t)]
      show a ++ t ++ String.join ts = a ++ (t :: ts).foldl (fun r t => r ++ t) ""
      show a ++ t ++ String.join ts = a ++ ts.foldl (fun r t => r ++ t) ("" ++ t)
      rw [ih ("" ++ t), String.empty_append, String.append_assoc]
  show (s :: l).foldl (fun r t => r ++ t) "" = s ++ String.join l
  rw [List.foldl_cons, H l ("" ++ s), String.empty_append]

theorem join_filter_ne_empty (l : List String) :
    String.join (l.filter (fun t => t ≠ "")) = String.join l := by
  induction l with
  | nil => rfl
  | cons s ss ih =>
    rw [List.filter_cons]
    by_cases h : s = ""
    · subst h
      have hd : (decide (("" : String) ≠ "")) = false := by decide
      simp only [hd, Bool.false_eq_true, if_false]
      rw [ih, join_cons, String.empty_append]
    · have hd : (decide (s ≠ "")) = true := by simp [h]
      simp only [hd, if_true]
      rw [join_cons, join_cons, ih]

/-! ## GPX / FIT helper lemmas -/

theorem segFold_points_nil (segs : List GpxSegment) :
    (∀ s ∈ segs, s.points = []) →
    ∀ acc, segs.foldl
        (fun acc segment => segment.points.foldl (fun acc point => acc ++ [mkPt point]) acc)
        acc = acc := by
  induction segs with
  | nil => intro _ _; rfl
  | cons s ss ih =>
    intro h acc
    rw [List.foldl_cons, h s (List.mem_cons_self _ _), List.foldl_nil]
    exact ih (fun s' hs' => h s' (List.mem_cons_of_mem _ hs')) acc

theorem gpxPoints_nil (g : GpxFile)
    (h : ∀ t ∈ g.tracks, ∀ s ∈ t.segments, s.points = []) :
    gpxPoints g = [] := by
  have H : ∀ (ts : List GpxTrack), (∀ t ∈ ts, ∀ s ∈ t.segments, s.points = []) →
      ∀ acc, ts.foldl
          (fun acc track =>
            track.segments.foldl
              (fun acc segment =>
                segment.points.foldl (fun acc point => acc ++ [mkPt point]) acc)
              acc)
          acc = acc := by
    intro ts
    induction ts with
    | nil => intro _ _; rfl
    | cons t tt ih =>
      intro h acc
      rw [List.foldl_cons, segFold_points_nil t.segments (h t (List.mem_cons_self _ _)) acc]
      exact ih (fun t' ht' => h t' (List.mem_cons_of_mem _ ht')) acc
  exact H g.tracks h []

/-! ## Claim theorems -/

/-- C3: for every GPX file whose parsed tracks contain zero points,
`summarize_gpx` returns `total_points = 0`, `start_time = "N/A"`,
`end_time = "N/A"` (and, being a total function of the parsed input,
raises no exception — the empty points list is never indexed). -/
theorem gpx_empty_track_summary (file_path : String) (g : GpxFile)
    (h : ∀ t ∈ g.tracks, ∀ s ∈ t.segments, s.points = []) :
    summarize_gpx file_path g =
      [("file", .sc (.s (basename file_path))),
       ("type", .sc (.s "gpx")),
       ("total_points", .sc (.i 0)),
       ("start_time", .sc (.s "N/A")),
       ("end_time", .sc (.s "N/A")),
       ("sample_points", .dlist [])] := by
  simp only [summarize_gpx, gpxPoints_nil g h]
  rfl

/-- Witness for C3 at a file with one track holding one empty segment. -/
theorem gpx_empty_track_summary_spot :
    summarize_gpx "w/track.gpx" ⟨[⟨[⟨[]⟩]⟩]⟩ =
      [("file", .sc (.s "track.gpx")),
       ("type", .sc (.s "gpx")),
       ("total_points", .sc (.i 0)),
       ("start_time", .sc (.s "N/A")),
       ("end_time", .sc (.s "N/A")),
       ("sample_points", .dlist [])] :=
  gpx_empty_track_summary "w/track.gpx" ⟨[⟨[⟨[]⟩]⟩]⟩ (by
    intro t ht s hs
    simp only [List.mem_singleton] at ht
    subst ht
    simp only [List.mem_singleton] at hs
    subst hs
    rfl)

/-- C4: for every FIT file with zero `record`-type messages,
`summarize_fit` returns `total_records = 0`, `fields = []` (the code
yields the empty list, not an absent key) and `sample_records = []`. -/
theorem fit_no_records_summary (file_path : String) (msgs : List FitMsg)
    (h : ∀ m ∈ msgs, m.kind ≠ "record") :
    summarize_fit file_path msgs =
      [("file", .sc (.s (basename file_path))),
       ("type", .sc (.s "fit")),
       ("total_records", .sc (.i 0)),
       ("fields", .list []),
       ("sample_records", .dlist [])] := by
  have hf : msgs.filter (fun m => m.kind = "record") = [] :=
    List.filter_eq_nil_iff.mpr (fun m hm => by simpa using h m hm)
  simp only [summarize_fit, hf]
  rfl

/-- Witness for C4 at a file holding one non-`record` message. -/
theorem fit_no_records_summary_spot :
    summarize_fit "a/ride.fit" [⟨"event", [("x", .i 1)]⟩] =
      [("file", .sc (.s "ride.fit")),
       ("type", .sc (.s "fit")),
       ("total_records", .sc (.i 0)),
       ("fields", .list []),
       ("sample_records", .dlist [])] :=
  fit_no_records_summary "a/ride.fit" [⟨"event", [("x", .i 1)]⟩] (by
    intro m hm
    simp only [List.mem_singleton] at hm
    subst hm
    decide)

/-- C7: `build_llm_prompt` is deterministic — equal summary lists, equal
optional query and the same current date give byte-identical results. -/
theorem build_llm_prompt_deterministic (s1 s2 : List Summary) (q1 q2 : Option String)
    (d1 d2 : String) (hs : s1 = s2) (hq : q1 = q2) (hd : d1 = d2) :
    build_llm_prompt s1 q1 d1 = build_llm_prompt s2 q2 d2 := by
  subst hs; subst hq; subst hd; rfl

/-- Witness for C7 at a concrete pair of equal calls. -/
theorem build_llm_prompt_deterministic_spot :
    build_llm_prompt [summarize_csv "health.csv" dfC2] none "2024-06-01"
      = build_llm_prompt [summarize_csv "health.csv" dfC2] none "2024-06-01" :=
  build_llm_prompt_deterministic _ _ _ _ _ _ rfl rfl rfl

/-- C6 counterexample: the summary `c6Bad` holds a mapping under key
`x`, yet no `x: mean=…` line is ever emitted — the whole prompt build
raises `KeyError: 'mean'` instead, because the stats branch subscripts
any mapping-valued field. -/
theorem stats_render_counterexample :
    lookupKey c6Bad "x" = some (.dict [("foo", .i 1)]) ∧
    statsLoop c6Bad = .error "KeyError: mean" ∧
    build_llm_prompt [c6Bad] none "2024-01-01" = .error "KeyError: mean" :=
  ⟨rfl, rfl, rfl⟩

theorem except_bind_ok {ε α β : Type} (a : α) (f : α → Except ε β) :
    (Except.ok a : Except ε α) >>= f = f a := rfl

/-- C6 (amended): in the tabular branch of `build_llm_prompt`, provided
every mapping-valued field carries `mean`/`min`/`max` keys, the stats
loop emits one `col: mean=…, min=…, max=…` line exactly for the
mapping-valued entries and nothing for scalar-valued ones — `statsSpec`
is the specification-side statement of that rule. -/
theorem stats_lines_iff_mapping (s : Summary)
    (h : ∀ k d, (k, SVal.dict d) ∈ s →
        ((lookupKey d "mean").isSome ∧ (lookupKey d "min").isSome ∧
          (lookupKey d "max").isSome)) :
    statsLoop s = .ok (statsSpec s) := by
  induction s with
  | nil => rfl
  | cons kv rest ih =>
    obtain ⟨k, v⟩ := kv
    have ihr := ih (fun k' d' hm => h k' d' (List.mem_cons_of_mem _ hm))
    cases v with
    | dict d =>
      obtain ⟨h1, h2, h3⟩ := h k d (List.mem_cons_self _ _)
      obtain ⟨m, hm⟩ := Option.isSome_iff_exists.mp h1
      obtain ⟨mn, hmn⟩ := Option.isSome_iff_exists.mp h2
      obtain ⟨mx, hmx⟩ := Option.isSome_iff_exists.mp h3
      simp only [statsLoop, pyGetScalar, hm, hmn, hmx, ihr, except_bind_ok,
        statsSpec, List.map_cons, join_cons, Option.getD_some]
      rfl
    | sc x =>
      simp only [statsLoop, ihr, statsSpec, List.map_cons, join_cons,
        String.empty_append]
    | list l =>
      simp only [statsLoop, ihr, statsSpec, List.map_cons, join_cons,
        String.empty_append]
    | dlist l =>
      simp only [statsLoop, ihr, statsSpec, List.map_cons, join_cons,
        String.empty_append]

/-- Witness for C6 (amended) at a summary with one stats mapping and one
scalar field: exactly one stats line comes out. -/
theorem stats_lines_iff_mapping_spot :
    statsLoop c6Good = .ok "HR: mean=65.0, min=60, max=70\n" := by
  have h := stats_lines_iff_mapping c6Good (by
    intro k d hmem
    simp only [c6Good, List.mem_cons, List.mem_singleton] at hmem
    rcases hmem with h1 | h1
    · rw [Prod.mk.injEq] at h1
      obtain ⟨hk, hv⟩ := h1
      rw [SVal.dict.injEq] at hv
      subst hv
      decide
    · simp at h1)
  rw [h]
  rfl

theorem evs_no_ollama (env : Env) (files : List String) (p : String) :
    Event.ollamaCalled p ∉ files.map (fun f =>
      match dispatchFile env f with
      | some _ => Event.summarizedFile f
      | none => Event.unsupportedFile f) := by
  intro hmem
  obtain ⟨f, _, hev⟩ := List.mem_map.mp hmem
  cases hd : dispatchFile env f <;> rw [hd] at hev <;> simp at hev

/-- C5: `query_ollama` never propagates an exception: it is a total
function of the stream behaviour, returning the concatenation, in
arrival order, of exactly the text fragments received before any
failure (the whole stream on success, the empty string when the request
itself fails) — and whenever `mainRun` reaches the model call at all,
the process exit code is 0. -/
theorem query_ollama_never_raises :
    (∀ e, query_ollama (.failAtStart e) = "") ∧
    (∀ (chunks : List Chunk) (err : Option String),
        query_ollama (.stream chunks err) = String.join (chunks.map chunkText)) ∧
    (∀ (env : Env) (q : Option String) (today : String) (p : String),
        Event.ollamaCalled p ∈ (mainRun env q today).2 →
        exitCode (mainRun env q today).1 = 0) := by
  refine ⟨fun e => rfl, fun chunks err => ?_, ?_⟩
  · show String.join ((chunks.map chunkText).filter (fun t => t ≠ "")) = _
    exact join_filter_ne_empty _
  · intro env q today p hp
    simp only [mainRun] at hp ⊢
    cases h1 : (dataFiles env.dirFiles).isEmpty
    · rw [h1] at hp
      rw [if_neg Bool.false_ne_true] at hp ⊢
      cases h2 : (summariesList env).isEmpty
      · rw [h2] at hp
        rw [if_neg Bool.false_ne_true] at hp ⊢
        cases hb : build_llm_prompt (summariesList env) q today with
        | error e =>
          rw [hb] at hp
          exact absurd hp (evs_no_ollama env _ p)
        | ok pr => rfl
      · rw [h2] at hp
        rw [if_pos rfl] at hp
        exact absurd hp (evs_no_ollama env _ p)
    · rw [h1] at hp
      rw [if_pos rfl] at hp
      exact absurd hp (List.not_mem_nil _)

set_option maxRecDepth 100000 in
/-- Witness for C5: a run that reaches the model call (with the request
failing at once) still exits 0. -/
theorem query_ollama_never_raises_spot :
    exitCode (mainRun envC5 none "2024-06-01").1 = 0 :=
  query_ollama_never_raises.2.2 envC5 none "2024-06-01"
    "Today\x27s date is 2024-06-01. Always use this as the current date.\n\nAnalyze this Apple Health CSV data and provide insights.\n\nFile: a.fit\nType: FIT\nTotal Records: 0\nFields: []\nSample Records: []\n\n========================================\nPlease provide a comprehensive analysis including:\n1. Notable patterns or trends\n2. Unusual findings\n3. Actionable health insights\n4. Areas for improvement\n"
    (by
      have h : (mainRun envC5 none "2024-06-01").2 =
          [Event.summarizedFile "a.fit",
           Event.ollamaCalled
             "Today\x27s date is 2024-06-01. Always use this as the current date.\n\nAnalyze this Apple Health CSV data and provide insights.\n\nFile: a.fit\nType: FIT\nTotal Records: 0\nFields: []\nSample Records: []\n\n========================================\nPlease provide a comprehensive analysis including:\n1. Notable patterns or trends\n2. Unusual findings\n3. Actionable health insights\n4. Areas for improvement\n"] := rfl
      rw [h]
      exact List.mem_cons_of_mem _ (List.mem_cons_self _ _))

set_option maxRecDepth 400000 in
/-- C2: with a directory holding exactly the one 3-row CSV of the
end-to-end scenario and no `--query`, the prompt passed to the model
client contains `Total Records: 3`, the date-range line, the `HR` stats
line, and ends with the four fixed default analysis prompts. -/
theorem end_to_end_prompt_contents (today : String) :
    ∃ p : String,
      (mainRun envC2 none today).2 =
        [Event.summarizedFile "health.csv", Event.ollamaCalled p] ∧
      (∃ a b, p = a ++ "Total Records: 3" ++ b) ∧
      (∃ a b, p = a ++ "Date Range: 2024-01-01 to 2024-01-03" ++ b) ∧
      (∃ a b, p = a ++ "HR: mean=65.0, min=60, max=70" ++ b) ∧
      (∃ a, p = a ++ defaultAnalysisTail) := by
  have hmean : colMeanOf (ColData.ints [60, 70, 65]) = Scalar.f 65 := by
    show Scalar.f ((((60 : Int) :: [70, 65]).sum : Rat) /
        (((60 : Int) :: [70, 65]).length : Rat)) = Scalar.f 65
    have h : ((((60 : Int) :: [70, 65]).sum : Rat) /
        (((60 : Int) :: [70, 65]).length : Rat)) = (65 : Rat) := by
      norm_num [List.sum_cons, List.sum_nil, List.length_cons, List.length_nil]
    rw [h]
  have hsum : summarize_csv "health.csv" dfC2 = csvSummaryC2 := by
    show [("file", SVal.sc (.s "health.csv")),
          ("total_records", SVal.sc (.i 3)),
          ("columns", SVal.list [.s "Date", .s "HR"]),
          ("date_range", SVal.sc (.s "2024-01-01 to 2024-01-03")),
          ("HR", SVal.dict [("mean", colMeanOf (ColData.ints [60, 70, 65])),
                            ("min", .i 60), ("max", .i 70)]),
          ("sample", SVal.dlist
            [[("Date", .s "2024-01-01"), ("HR", .i 60)],
             [("Date", .s "2024-01-02"), ("HR", .i 70)],
             [("Date", .s "2024-01-03"), ("HR", .i 65)]])] = csvSummaryC2
    rw [hmean]
    rfl
  have hSL : summariesList envC2 = [csvSummaryC2] := by
    have h0 : summariesList envC2 = [summarize_csv "health.csv" dfC2] := rfl
    rw [h0, hsum]
  have hbuild : build_llm_prompt [csvSummaryC2] none today =
      .ok ((("Today\x27s date is " ++ (today ++ ". Always use this as the current date.\n\nAnalyze this Apple Health CSV data and provide insights.\n\n")) ++ "File: health.csv\nTotal Records: 3\nColumns: [\x27Date\x27, \x27HR\x27]\nDate Range: 2024-01-01 to 2024-01-03\nHR: mean=65.0, min=60, max=70\nSample Rows:\n[\x7b\x27Date\x27: \x272024-01-01\x27, \x27HR\x27: 60\x7d, \x7b\x27Date\x27: \x272024-01-02\x27, \x27HR\x27: 70\x7d, \x7b\x27Date\x27: \x272024-01-03\x27, \x27HR\x27: 65\x7d]\n\n========================================\n") ++ "Please provide a comprehensive analysis including:\n1. Notable patterns or trends\n2. Unusual findings\n3. Actionable health insights\n4. Areas for improvement\n") := rfl
  have hpair : mainRun envC2 none today =
      (.completed [csvSummaryC2] "",
       [Event.summarizedFile "health.csv",
        Event.ollamaCalled
          ((("Today\x27s date is " ++ (today ++ ". Always use this as the current date.\n\nAnalyze this Apple Health CSV data and provide insights.\n\n")) ++ "File: health.csv\nTotal Records: 3\nColumns: [\x27Date\x27, \x27HR\x27]\nDate Range: 2024-01-01 to 2024-01-03\nHR: mean=65.0, min=60, max=70\nSample Rows:\n[\x7b\x27Date\x27: \x272024-01-01\x27, \x27HR\x27: 60\x7d, \x7b\x27Date\x27: \x272024-01-02\x27, \x27HR\x27: 70\x7d, \x7b\x27Date\x27: \x272024-01-03\x27, \x27HR\x27: 65\x7d]\n\n========================================\n") ++ "Please provide a comprehensive analysis including:\n1. Notable patterns or trends\n2. Unusual findings\n3. Actionable health insights\n4. Areas for improvement\n")]) := by
    simp only [mainRun]
    rw [hSL, hbuild]
    rfl
  refine ⟨_, congrArg Prod.snd hpair, ⟨"Today\x27s date is " ++ (today ++ ". Always use this as the current date.\n\nAnalyze this Apple Health CSV data and provide insights.\n\nFile: health.csv\n"), "\nColumns: [\x27Date\x27, \x27HR\x27]\nDate Range: 2024-01-01 to 2024-01-03\nHR: mean=65.0, min=60, max=70\nSample Rows:\n[\x7b\x27Date\x27: \x272024-01-01\x27, \x27HR\x27: 60\x7d, \x7b\x27Date\x27: \x272024-01-02\x27, \x27HR\x27: 70\x7d, \x7b\x27Date\x27: \x272024-01-03\x27, \x27HR\x27: 65\x7d]\n\n========================================\nPlease provide a comprehensive analysis including:\n1. Notable patterns or trends\n2. Unusual findings\n3. Actionable health insights\n4. Areas for improvement\n", ?_⟩,
    ⟨"Today\x27s date is " ++ (today ++ ". Always use this as the current date.\n\nAnalyze this Apple Health CSV data and provide insights.\n\nFile: health.csv\nTotal Records: 3\nColumns: [\x27Date\x27, \x27HR\x27]\n"), "\nHR: mean=65.0, min=60, max=70\nSample Rows:\n[\x7b\x27Date\x27: \x272024-01-01\x27, \x27HR\x27: 60\x7d, \x7b\x27Date\x27: \x272024-01-02\x27, \x27HR\x27: 70\x7d, \x7b\x27Date\x27: \x272024-01-03\x27, \x27HR\x27: 65\x7d]\n\n========================================\nPlease provide a comprehensive analysis including:\n1. Notable patterns or trends\n2. Unusual findings\n3. Actionable health insights\n4. Areas for improvement\n", ?_⟩,
    ⟨"Today\x27s date is " ++ (today ++ ". Always use this as the current date.\n\nAnalyze this Apple Health CSV data and provide insights.\n\nFile: health.csv\nTotal Records: 3\nColumns: [\x27Date\x27, \x27HR\x27]\nDate Range: 2024-01-01 to 2024-01-03\n"), "\nSample Rows:\n[\x7b\x27Date\x27: \x272024-01-01\x27, \x27HR\x27: 60\x7d, \x7b\x27Date\x27: \x272024-01-02\x27, \x27HR\x27: 70\x7d, \x7b\x27Date\x27: \x272024-01-03\x27, \x27HR\x27: 65\x7d]\n\n========================================\nPlease provide a comprehensive analysis including:\n1. Notable patterns or trends\n2. Unusual findings\n3. Actionable health insights\n4. Areas for improvement\n", ?_⟩,
    ⟨"Today\x27s date is " ++ (today ++ ". Always use this as the current date.\n\nAnalyze this Apple Health CSV data and provide insights.\n\nFile: health.csv\nTotal Records: 3\nColumns: [\x27Date\x27, \x27HR\x27]\nDate Range: 2024-01-01 to 2024-01-03\nHR: mean=65.0, min=60, max=70\nSample Rows:\n[\x7b\x27Date\x27: \x272024-01-01\x27, \x27HR\x27: 60\x7d, \x7b\x27Date\x27: \x272024-01-02\x27, \x27HR\x27: 70\x7d, \x7b\x27Date\x27: \x272024-01-03\x27, \x27HR\x27: 65\x7d]\n\n========================================\n"), ?_⟩⟩ <;>
    (simp only [String.append_assoc]; rfl)

/-! ## Order lemmas for the Python string comparison -/

theorem strLtb_irrefl (a : List Char) : strLtb a a = false := by
  induction a with
  | nil => rfl
  | cons c a ih => simp [strLtb, Nat.lt_irrefl, ih]

theorem strLtb_trans {a b c : List Char} (h1 : strLtb a b = true)
    (h2 : strLtb b c = true) : strLtb a c = true := by
  induction a generalizing b c with
  | nil =>
    cases c with
    | nil =>
      cases b with
      | nil => exact absurd h1 (by simp [strLtb])
      | cons y b => exact absurd h2 (by simp [strLtb])
    | cons z c => rfl
  | cons x a ih =>
    cases b with
    | nil => exact absurd h1 (by simp [strLtb])
    | cons y b =>
      cases c with
      | nil => exact absurd h2 (by simp [strLtb])
      | cons z c =>
        simp only [strLtb] at h1 h2 ⊢
        by_cases hxy : x.toNat < y.toNat
        · by_cases hyz : y.toNat < z.toNat
          · simp [Nat.lt_trans hxy hyz]
          · simp only [if_neg hyz] at h2
            by_cases hzy : z.toNat < y.toNat
            · simp [hzy] at h2
            · have hv : y.toNat = z.toNat :=
                Nat.le_antisymm (Nat.le_of_not_lt hzy) (Nat.le_of_not_lt hyz)
              have hxz : x.toNat < z.toNat := hv ▸ hxy
              simp [hxz]
        · simp only [if_neg hxy] at h1
          by_cases hyx : y.toNat < x.toNat
          · simp [hyx] at h1
          · have hv : x.toNat = y.toNat :=
              Nat.le_antisymm (Nat.le_of_not_lt hyx) (Nat.le_of_not_lt hxy)
            by_cases hyz : y.toNat < z.toNat
            · have hxz : x.toNat < z.toNat := hv ▸ hyz
              simp [hxz]
            · simp only [if_neg hyz] at h2
              by_cases hzy : z.toNat < y.toNat
              · simp [hzy] at h2
              · simp only [if_neg hyx] at h1
                simp only [if_neg hzy] at h2
                have h3 := ih h1 h2
                have hxz : ¬ x.toNat < z.toNat := by rw [hv]; exact hyz
                have hzx : ¬ z.toNat < x.toNat := by
                  intro hc
                  exact hzy (hv ▸ hc)
                simp [hxz, hzx, h3]

theorem strLtb_le_trans {a b c : List Char} (h1 : strLtb a b = false)
    (h2 : strLtb b c = false) : strLtb a c = false := by
  induction a generalizing b c with
  | nil =>
    cases c with
    | nil => rfl
    | cons z c =>
      cases b with
      | nil => exact absurd h2 (by simp [strLtb])
      | cons y b => exact absurd h1 (by simp [strLtb])
  | cons x a ih =>
    cases c with
    | nil => rfl
    | cons z c =>
      cases b with
      | nil => exact absurd h2 (by simp [strLtb])
      | cons y b =>
        simp only [strLtb] at h1 h2 ⊢
        by_cases hxy : x.toNat < y.toNat
        · simp [hxy] at h1
        · by_cases hyz : y.toNat < z.toNat
          · simp [hyz] at h2
          · have hyx_le : y.toNat ≤ x.toNat := Nat.le_of_not_lt hxy
            have hzy_le : z.toNat ≤ y.toNat := Nat.le_of_not_lt hyz
            have hzx_le : z.toNat ≤ x.toNat := Nat.le_trans hzy_le hyx_le
            have hxz : ¬ x.toNat < z.toNat := Nat.not_lt.mpr hzx_le
            simp only [if_neg hxz]
            by_cases hzx : z.toNat < x.toNat
            · simp [hzx]
            · have hxez : x.toNat = z.toNat :=
                Nat.le_antisymm (Nat.le_of_not_lt hzx) hzx_le
              have hyev : y.toNat = x.toNat :=
                Nat.le_antisymm hyx_le (hxez ▸ hzy_le)
              have hynx : ¬ y.toNat < x.toNat := Nat.not_lt.mpr (Nat.le_of_eq hyev.symm)
              have hzny : ¬ z.toNat < y.toNat := Nat.not_lt.mpr (Nat.le_of_eq (hyev.trans hxez))
              simp only [if_neg hxy, if_neg hynx] at h1
              simp only [if_neg hyz, if_neg hzny] at h2
              simp only [if_neg hzx]
              exact ih h1 h2

theorem foldl_pick_mem {α : Type} (t : α → α → Bool) (x : α) (xs : List α) :
    xs.foldl (fun a b => if t a b then b else a) x ∈ x :: xs := by
  induction xs generalizing x with
  | nil => simp
  | cons y ys ih =>
    rw [List.foldl_cons]
    rcases List.mem_cons.mp (ih (if t x y then y else x)) with h | h
    · rw [h]
      by_cases hc : t x y
      · simp [hc]
      · simp [hc]
    · exact List.mem_cons_of_mem _ (List.mem_cons_of_mem _ h)

theorem foldl_pymin_not_lt (xs : List String) (x : String) :
    ∀ y ∈ x :: xs,
      strLtb y.toList
        ((xs.foldl (fun a b => if strLtb b.toList a.toList then b else a) x)).toList
        = false := by
  induction xs generalizing x with
  | nil =>
    intro y hy
    rw [List.mem_singleton] at hy
    rw [hy]
    exact strLtb_irrefl _
  | cons z zs ih =>
    intro y hy
    rw [List.foldl_cons]
    rcases List.mem_cons.mp hy with h | h
    · by_cases hc : strLtb z.toList x.toList = true
      · rw [if_pos hc, h]
        cases hres : strLtb x.toList
            ((zs.foldl (fun a b => if strLtb b.toList a.toList then b else a) z)).toList
        · rfl
        · have h1 := ih z z (List.mem_cons_self _ _)
          have h2 := strLtb_trans hc hres
          rw [h1] at h2
          exact absurd h2 Bool.false_ne_true
      · rw [if_neg hc, h]
        exact ih x x (List.mem_cons_self _ _)
    · rcases List.mem_cons.mp h with h2 | h2
      · by_cases hc : strLtb z.toList x.toList = true
        · rw [if_pos hc, h2]
          exact ih z z (List.mem_cons_self _ _)
        · rw [if_neg hc, h2]
          have h1 := ih x x (List.mem_cons_self _ _)
          have hcf : strLtb z.toList x.toList = false := by
            cases hcc : strLtb z.toList x.toList
            · rfl
            · exact absurd hcc hc
          exact strLtb_le_trans hcf h1
      · by_cases hc : strLtb z.toList x.toList = true
        · rw [if_pos hc]
          exact ih z y (List.mem_cons_of_mem _ h2)
        · rw [if_neg hc]
          exact ih x y (List.mem_cons_of_mem _ h2)

theorem foldl_pymax_not_lt (xs : List String) (x : String) :
    ∀ y ∈ x :: xs,
      strLtb
        ((xs.foldl (fun a b => if strLtb a.toList b.toList then b else a) x)).toList
        y.toList = false := by
  induction xs generalizing x with
  | nil =>
    intro y hy
    rw [List.mem_singleton] at hy
    rw [hy]
    exact strLtb_irrefl _
  | cons z zs ih =>
    intro y hy
    rw [List.foldl_cons]
    rcases List.mem_cons.mp hy with h | h
    · by_cases hc : strLtb x.toList z.toList = true
      · rw [if_pos hc, h]
        cases hres : strLtb
            ((zs.foldl (fun a b => if strLtb a.toList b.toList then b else a) z)).toList
            x.toList
        · rfl
        · have h1 := ih z z (List.mem_cons_self _ _)
          have h2 := strLtb_trans hres hc
          rw [h1] at h2
          exact absurd h2 Bool.false_ne_true
      · rw [if_neg hc, h]
        exact ih x x (List.mem_cons_self _ _)
    · rcases List.mem_cons.mp h with h2 | h2
      · by_cases hc : strLtb x.toList z.toList = true
        · rw [if_pos hc, h2]
          exact ih z z (List.mem_cons_self _ _)
        · rw [if_neg hc, h2]
          have h1 := ih x x (List.mem_cons_self _ _)
          have hcf : strLtb x.toList z.toList = false := by
            cases hcc : strLtb x.toList z.toList
            · rfl
            · exact absurd hcc hc
          exact strLtb_le_trans h1 hcf
      · by_cases hc : strLtb x.toList z.toList = true
        · rw [if_pos hc]
          exact ih z y (List.mem_cons_of_mem _ h2)
        · rw [if_neg hc]
          exact ih x y (List.mem_cons_of_mem _ h2)

/-- C1 (amended): for a table `[A, B, Date]` with `A` numeric and at
least one row, provided `A` does not collide with one of the summary's
own keys (`total_records`, `columns`, `date_range`, `sample` — a
numeric column with one of those names overwrites the corresponding
entry), the summary's `total_records` is the row count, `columns` is
`[A, B, Date]` in order, `date_range` is `"<min Date> to <max Date>"`
for the Python string order (no element compares below the min or above
the max), and the entry under `A` is a mapping whose `mean`, `min`,
`max` are the exact mean and the least and greatest elements of the
column; and with no column literally named `Date`, `date_range` is
`"N/A"`. -/
theorem csv_summary_stats_amended :
    (∀ (path A B : String) (a : Int) (as : List Int) (bvals : List String)
        (d0 : String) (ds : List String),
      A ≠ "Date" → B ≠ "Date" →
      A ≠ "total_records" → A ≠ "columns" → A ≠ "date_range" → A ≠ "sample" →
      lookupKey (summarize_csv path
          ⟨[(A, .ints (a :: as)), (B, .strs bvals), ("Date", .strs (d0 :: ds))]⟩)
          "total_records" = some (.sc (.i (a :: as).length)) ∧
      lookupKey (summarize_csv path
          ⟨[(A, .ints (a :: as)), (B, .strs bvals), ("Date", .strs (d0 :: ds))]⟩)
          "columns" = some (.list [.s A, .s B, .s "Date"]) ∧
      (∃ dmin dmax : String,
        lookupKey (summarize_csv path
            ⟨[(A, .ints (a :: as)), (B, .strs bvals), ("Date", .strs (d0 :: ds))]⟩)
            "date_range" = some (.sc (.s (dmin ++ " to " ++ dmax))) ∧
        dmin ∈ d0 :: ds ∧ (∀ y ∈ d0 :: ds, strLtb y.toList dmin.toList = false) ∧
        dmax ∈ d0 :: ds ∧ (∀ y ∈ d0 :: ds, strLtb dmax.toList y.toList = false)) ∧
      (∃ (q : Rat) (mn mx : Int),
        lookupKey (summarize_csv path
            ⟨[(A, .ints (a :: as)), (B, .strs bvals), ("Date", .strs (d0 :: ds))]⟩)
            A = some (.dict [("mean", .f q), ("min", .i mn), ("max", .i mx)]) ∧
        q * ((a :: as).length : Rat) = ((a :: as).sum : Rat) ∧
        mn ∈ a :: as ∧ (∀ y ∈ a :: as, mn ≤ y) ∧
        mx ∈ a :: as ∧ (∀ y ∈ a :: as, y ≤ mx))) ∧
    (∀ (path A B C : String) (a : Int) (as : List Int) (bvals cvals : List String),
      A ≠ "Date" → B ≠ "Date" → C ≠ "Date" → A ≠ "date_range" →
      lookupKey (summarize_csv path
          ⟨[(A, .ints (a :: as)), (B, .strs bvals), (C, .strs cvals)]⟩)
          "date_range" = some (.sc (.s "N/A"))) := by
  constructor
  · intro path A B a as bvals d0 ds hAD hBD h1 h2 h3 h4
    have hany : (([(A, ColData.ints (a :: as)), (B, ColData.strs bvals),
        ("Date", ColData.strs (d0 :: ds))] : List (String × ColData)).any
          (fun c => c.1 = "Date")) = true := by
      simp
    have hfil : (([(A, ColData.ints (a :: as)), (B, ColData.strs bvals),
        ("Date", ColData.strs (d0 :: ds))] : List (String × ColData)).filter
          (fun c => isNumericCol c.2)) = [(A, ColData.ints (a :: as))] := by
      simp [List.filter_cons, isNumericCol]
    have hfind : dfColumn
        ⟨[(A, .ints (a :: as)), (B, .strs bvals), ("Date", .strs (d0 :: ds))]⟩
        "Date" = ColData.strs (d0 :: ds) := by
      unfold dfColumn
      rw [List.find?_cons_of_neg _ (by simp [hAD]),
        List.find?_cons_of_neg _ (by simp [hBD]),
        List.find?_cons_of_pos _ (by simp)]
      rfl
    refine ⟨?_, ?_, ?_, ?_⟩
    · simp only [summarize_csv]
      rw [if_pos hany, hfil, List.foldl_cons, List.foldl_nil]
      rw [lookupKey_setKey, if_neg (by decide)]
      rw [lookupKey_setKey, if_neg (fun h => h1 h.symm)]
      rw [lookupKey_setKey, if_neg (by decide)]
      rw [lookupKey_setKey, if_neg (by decide)]
      rw [lookupKey_setKey, if_pos rfl]
      rfl
    · simp only [summarize_csv]
      rw [if_pos hany, hfil, List.foldl_cons, List.foldl_nil]
      rw [lookupKey_setKey, if_neg (by decide)]
      rw [lookupKey_setKey, if_neg (fun h => h2 h.symm)]
      rw [lookupKey_setKey, if_neg (by decide)]
      rw [lookupKey_setKey, if_pos rfl]
      rfl
    · refine ⟨ds.foldl (fun x y => if strLtb y.toList x.toList then y else x) d0,
        ds.foldl (fun x y => if strLtb x.toList y.toList then y else x) d0,
        ?_, ?_, ?_, ?_, ?_⟩
      · simp only [summarize_csv]
        rw [if_pos hany, hfil, List.foldl_cons, List.foldl_nil, hfind]
        rw [lookupKey_setKey, if_neg (by decide)]
        rw [lookupKey_setKey, if_neg (fun h => h3 h.symm)]
        rw [lookupKey_setKey, if_pos rfl]
        rfl
      · exact foldl_pick_mem (fun x y => strLtb y.toList x.toList) d0 ds
      · exact foldl_pymin_not_lt ds d0
      · exact foldl_pick_mem (fun x y => strLtb x.toList y.toList) d0 ds
      · exact foldl_pymax_not_lt ds d0
    · refine ⟨((a :: as).sum : Rat) / ((a :: as).length : Rat),
        as.foldl min a, as.foldl max a, ?_, ?_, ?_, ?_, ?_, ?_⟩
      · simp only [summarize_csv]
        rw [if_pos hany, hfil, List.foldl_cons, List.foldl_nil]
        rw [lookupKey_setKey, if_neg h4]
        rw [lookupKey_setKey, if_pos rfl]
        rfl
      · have hlen : (((a :: as).length : Nat) : Rat) ≠ 0 :=
          Nat.cast_ne_zero.mpr (by simp)
        exact div_mul_cancel₀ _ hlen
      · exact foldl_min_mem a as
      · exact foldl_min_le a as
      · exact foldl_max_mem a as
      · exact foldl_max_ge a as
  · intro path A B C a as bvals cvals hAD hBD hCD h3
    have hany : (([(A, ColData.ints (a :: as)), (B, ColData.strs bvals),
        (C, ColData.strs cvals)] : List (String × ColData)).any
          (fun c => c.1 = "Date")) = false := by
      simp [hAD, hBD, hCD]
    have hfil : (([(A, ColData.ints (a :: as)), (B, ColData.strs bvals),
        (C, ColData.strs cvals)] : List (String × ColData)).filter
          (fun c => isNumericCol c.2)) = [(A, ColData.ints (a :: as))] := by
      simp [List.filter_cons, isNumericCol]
    simp only [summarize_csv]
    rw [if_neg (fun h => absurd (hany.symm.trans h) Bool.false_ne_true),
      hfil, List.foldl_cons, List.foldl_nil]
    rw [lookupKey_setKey, if_neg (by decide)]
    rw [lookupKey_setKey, if_neg (fun h => h3 h.symm)]
    rw [lookupKey_setKey, if_pos rfl]

/-- C1 counterexample: a tabular file with columns
`[total_records, B, Date]` whose numeric column is named
`total_records` — its one-row table makes the claim demand
`total_records = 1`, but the stats loop overwrites the entry with the
column's stats mapping. -/
theorem csv_summary_stats_counterexample :
    lookupKey (summarize_csv "t.csv" c1Df) "total_records"
      = some (.dict [("mean", colMeanOf (ColData.ints [5])),
                     ("min", .i 5), ("max", .i 5)]) ∧
    lookupKey (summarize_csv "t.csv" c1Df) "total_records" ≠ some (.sc (.i 1)) :=
  ⟨rfl, by decide⟩

/-- Witness for C1 (amended) at a one-row `[HR, Name, Date]` table and
a one-row `[HR, Name, When]` table. -/
theorem csv_summary_stats_amended_spot :
    (lookupKey (summarize_csv "d/h.csv"
        ⟨[("HR", .ints [5]), ("Name", .strs ["x"]), ("Date", .strs ["2024-01-01"])]⟩)
        "total_records" = some (.sc (.i 1)) ∧
     lookupKey (summarize_csv "d/h.csv"
        ⟨[("HR", .ints [5]), ("Name", .strs ["x"]), ("Date", .strs ["2024-01-01"])]⟩)
        "columns" = some (.list [.s "HR", .s "Name", .s "Date"]) ∧
     (∃ dmin dmax : String,
        lookupKey (summarize_csv "d/h.csv"
            ⟨[("HR", .ints [5]), ("Name", .strs ["x"]), ("Date", .strs ["2024-01-01"])]⟩)
            "date_range" = some (.sc (.s (dmin ++ " to " ++ dmax))) ∧
        dmin ∈ ["2024-01-01"] ∧
        (∀ y ∈ ["2024-01-01"], strLtb y.toList dmin.toList = false) ∧
        dmax ∈ ["2024-01-01"] ∧
        (∀ y ∈ ["2024-01-01"], strLtb dmax.toList y.toList = false)) ∧
     (∃ (q : Rat) (mn mx : Int),
        lookupKey (summarize_csv "d/h.csv"
            ⟨[("HR", .ints [5]), ("Name", .strs ["x"]), ("Date", .strs ["2024-01-01"])]⟩)
            "HR" = some (.dict [("mean", .f q), ("min", .i mn), ("max", .i mx)]) ∧
        q * (([5] : List Int).length : Rat) = (([5] : List Int).sum : Rat) ∧
        mn ∈ ([5] : List Int) ∧ (∀ y ∈ ([5] : List Int), mn ≤ y) ∧
        mx ∈ ([5] : List Int) ∧ (∀ y ∈ ([5] : List Int), y ≤ mx))) ∧
    lookupKey (summarize_csv "d/h.csv"
        ⟨[("HR", .ints [5]), ("Name", .strs ["x"]), ("When", .strs ["y"])]⟩)
        "date_range" = some (.sc (.s "N/A")) :=
  ⟨csv_summary_stats_amended.1 "d/h.csv" "HR" "Name" 5 [] ["x"] "2024-01-01" []
      (by decide) (by decide) (by decide) (by decide) (by decide) (by decide),
   csv_summary_stats_amended.2 "d/h.csv" "HR" "Name" "When" 5 [] ["x"] ["y"]
      (by decide) (by decide) (by decide) (by decide)⟩

/-- C8 (amended): every summary carries `file` = basename and GPX/FIT
summaries carry their `type` tags unconditionally; tabular summaries
keep `file` = basename and omit the `type` key provided no numeric
column is itself named `file` resp. `type` (such a column's stats
mapping would overwrite/create the key). -/
theorem summary_file_type_tags_amended :
    (∀ (fp : String) (g : GpxFile),
        lookupKey (summarize_gpx fp g) "file" = some (.sc (.s (basename fp))) ∧
        lookupKey (summarize_gpx fp g) "type" = some (.sc (.s "gpx"))) ∧
    (∀ (fp : String) (msgs : List FitMsg),
        lookupKey (summarize_fit fp msgs) "file" = some (.sc (.s (basename fp))) ∧
        lookupKey (summarize_fit fp msgs) "type" = some (.sc (.s "fit"))) ∧
    (∀ (fp : String) (df : DataFrame),
        (∀ c ∈ df.cols, c.1 = "file" → isNumericCol c.2 = false) →
        lookupKey (summarize_csv fp df) "file" = some (.sc (.s (basename fp)))) ∧
    (∀ (fp : String) (df : DataFrame),
        (∀ c ∈ df.cols, c.1 = "type" → isNumericCol c.2 = false) →
        lookupKey (summarize_csv fp df) "type" = none) := by
  refine ⟨fun fp g => ⟨rfl, rfl⟩, fun fp msgs => ⟨rfl, rfl⟩, ?_, ?_⟩
  · intro fp df hno
    have hfilter : ∀ c ∈ df.cols.filter (fun c => isNumericCol c.2), c.1 ≠ "file" := by
      intro c hc heq
      obtain ⟨hmem, hnum⟩ := List.mem_filter.mp hc
      rw [hno c hmem heq] at hnum
      exact absurd hnum Bool.false_ne_true
    simp only [summarize_csv]
    rw [lookupKey_setKey, if_neg (by decide)]
    rw [lookupKey_statsFold _ _ _ hfilter]
    by_cases hany : (df.cols.any (fun c => c.1 = "Date")) = true
    · rw [if_pos hany]
      rw [lookupKey_setKey, if_neg (by decide)]
      rw [lookupKey_setKey, if_neg (by decide)]
      rw [lookupKey_setKey, if_neg (by decide)]
      rw [lookupKey_setKey, if_pos rfl]
    · rw [if_neg hany]
      rw [lookupKey_setKey, if_neg (by decide)]
      rw [lookupKey_setKey, if_neg (by decide)]
      rw [lookupKey_setKey, if_neg (by decide)]
      rw [lookupKey_setKey, if_pos rfl]
  · intro fp df hno
    have hfilter : ∀ c ∈ df.cols.filter (fun c => isNumericCol c.2), c.1 ≠ "type" := by
      intro c hc heq
      obtain ⟨hmem, hnum⟩ := List.mem_filter.mp hc
      rw [hno c hmem heq] at hnum
      exact absurd hnum Bool.false_ne_true
    simp only [summarize_csv]
    rw [lookupKey_setKey, if_neg (by decide)]
    rw [lookupKey_statsFold _ _ _ hfilter]
    by_cases hany : (df.cols.any (fun c => c.1 = "Date")) = true
    · rw [if_pos hany]
      rw [lookupKey_setKey, if_neg (by decide)]
      rw [lookupKey_setKey, if_neg (by decide)]
      rw [lookupKey_setKey, if_neg (by decide)]
      rw [lookupKey_setKey, if_neg (by decide)]
      rfl
    · rw [if_neg hany]
      rw [lookupKey_setKey, if_neg (by decide)]
      rw [lookupKey_setKey, if_neg (by decide)]
      rw [lookupKey_setKey, if_neg (by decide)]
      rw [lookupKey_setKey, if_neg (by decide)]
      rfl

/-- C8 counterexample: a one-row table with a numeric column named
`type` makes the tabular summary carry a `type` key (holding the stats
mapping), contradicting the claim that tabular summaries never do. -/
theorem summary_file_type_tags_counterexample :
    lookupKey (summarize_csv "a.csv" c8Df) "type"
      = some (.dict [("mean", colMeanOf (ColData.ints [1])),
                     ("min", .i 1), ("max", .i 1)]) ∧
    lookupKey (summarize_csv "a.csv" c8Df) "type" ≠ none :=
  ⟨rfl, by decide⟩

/-- Witness for C8 (amended) at concrete GPX/FIT/CSV inputs. -/
theorem summary_file_type_tags_spot :
    lookupKey (summarize_gpx "a/b.gpx" ⟨[]⟩) "type" = some (.sc (.s "gpx")) ∧
    lookupKey (summarize_fit "c.fit" []) "type" = some (.sc (.s "fit")) ∧
    lookupKey (summarize_csv "w/health.csv" dfC2) "file" = some (.sc (.s "health.csv")) ∧
    lookupKey (summarize_csv "w/health.csv" dfC2) "type" = none :=
  ⟨(summary_file_type_tags_amended.1 "a/b.gpx" ⟨[]⟩).2,
   (summary_file_type_tags_amended.2.1 "c.fit" []).2,
   summary_file_type_tags_amended.2.2.1 "w/health.csv" dfC2 (by decide),
   summary_file_type_tags_amended.2.2.2 "w/health.csv" dfC2 (by decide)⟩

/-- C9: when none of the three glob patterns matches any directory
entry, `mainRun` stops at the no-files exit with status 1, with an
empty event trace — no summarizer and no model call. -/
theorem no_files_exit1 (env : Env) (q : Option String) (today : String)
    (h : ∀ f ∈ env.dirFiles,
        globMatch f ".csv".toList = false ∧ globMatch f ".gpx".toList = false ∧
        globMatch f ".fit".toList = false) :
    mainRun env q today = (.exitNoFiles, []) ∧
    exitCode (mainRun env q today).1 = 1 := by
  have hd : dataFiles env.dirFiles = [] := by
    unfold dataFiles
    rw [List.filter_eq_nil_iff.mpr (fun f hf => by rw [(h f hf).1]; decide),
      List.filter_eq_nil_iff.mpr (fun f hf => by rw [(h f hf).2.1]; decide),
      List.filter_eq_nil_iff.mpr (fun f hf => by rw [(h f hf).2.2]; decide)]
    rfl
  constructor
  · simp only [mainRun, hd]
    rfl
  · simp only [mainRun, hd]
    rfl

/-- Witness for C9: a directory holding only a text file and a PDF. -/
theorem no_files_exit1_spot :
    mainRun envC9 none "2024-06-01" = (.exitNoFiles, []) ∧
    exitCode (mainRun envC9 none "2024-06-01").1 = 1 :=
  no_files_exit1 envC9 none "2024-06-01" (by decide)

/-! ## Glob and extension lemmas for C10 -/

theorem takeWhile_append_of_all {α : Type} (pr : α → Bool) (l1 l2 : List α)
    (h : ∀ x ∈ l1, pr x = true) :
    (l1 ++ l2).takeWhile pr = l1 ++ l2.takeWhile pr := by
  induction l1 with
  | nil => rfl
  | cons x l ih =>
    rw [List.cons_append, List.takeWhile_cons, h x (List.mem_cons_self _ _),
      if_pos rfl, ih (fun x hx => h x (List.mem_cons_of_mem _ hx)), List.cons_append]

theorem extSplit_append_dot (ys p : List Char)
    (hpnd : ∀ c ∈ p, (c != '.') = true)
    (hy : ∃ c ∈ ys, (c != '.') = true) :
    extSplit (ys ++ '.' :: p) = '.' :: p := by
  have hrev : (ys ++ '.' :: p).reverse = p.reverse ++ '.' :: ys.reverse := by
    rw [List.reverse_append, List.reverse_cons, List.append_assoc]
    rfl
  have htake : ((ys ++ '.' :: p).reverse.takeWhile (fun c => c != '.')) = p.reverse := by
    rw [hrev, takeWhile_append_of_all _ _ _ (fun x hx => hpnd x (List.mem_reverse.mp hx)),
      List.takeWhile_cons, if_neg (by decide), List.append_nil]
  have hanyr : (ys.reverse.any (fun c => c != '.')) = true := by
    obtain ⟨c, hc1, hc2⟩ := hy
    exact List.any_eq_true.mpr ⟨c, List.mem_reverse.mpr hc1, hc2⟩
  unfold extSplit
  rw [htake, hrev, List.drop_left]
  show (if (ys.reverse.any (fun c => c != '.')) = true
        then '.' :: p.reverse.reverse else []) = '.' :: p
  rw [if_pos hanyr, List.reverse_reverse]

theorem extLower_of_glob (f : String) (p : List Char)
    (hpnd : ∀ c ∈ p, (c != '.') = true)
    (h : globMatch f ('.' :: p) = true) :
    extLower f = ('.' :: p).map Char.toLower := by
  unfold globMatch at h
  cases hft : f.toList with
  | nil => rw [hft] at h; exact absurd h (by simp)
  | cons c rest =>
    rw [hft] at h
    rw [Bool.and_eq_true] at h
    obtain ⟨hc, hsuf⟩ := h
    obtain ⟨ys, hys⟩ := List.isSuffixOf_iff_suffix.mp hsuf
    unfold extLower
    rw [hft, ← hys]
    rw [extSplit_append_dot ys p hpnd ?hy]
    case hy =>
      cases ys with
      | nil =>
        rw [List.nil_append] at hys
        injection hys with h1 h2
        rw [← h1] at hc
        exact absurd hc (by decide)
      | cons y ys' =>
        rw [List.cons_append] at hys
        injection hys with h1 h2
        exact ⟨y, List.mem_cons_self _ _, by rw [h1]; exact hc⟩

theorem filterMap_eq_map_of_some {α β : Type} (g : α → Option β) (fn : α → β)
    (l : List α) (h : ∀ x ∈ l, g x = some (fn x)) : l.filterMap g = l.map fn := by
  induction l with
  | nil => rfl
  | cons x xs ih =>
    rw [List.filterMap_cons, h x (List.mem_cons_self _ _), List.map_cons,
      ih (fun x hx => h x (List.mem_cons_of_mem _ hx))]

theorem dispatchFile_of_mem (env : Env) (f : String)
    (hf : f ∈ dataFiles env.dirFiles) :
    (extLower f = ".csv".toList ∨ extLower f = ".gpx".toList ∨
      extLower f = ".fit".toList) ∧
    dispatchFile env f = some (summarizeByExt env f) := by
  have hcase : globMatch f ".csv".toList = true ∨ globMatch f ".gpx".toList = true ∨
      globMatch f ".fit".toList = true := by
    unfold dataFiles at hf
    rcases List.mem_append.mp hf with hf1 | hf2
    · rcases List.mem_append.mp hf1 with hcsv | hgpx
      · exact Or.inl (List.mem_filter.mp hcsv).2
      · exact Or.inr (Or.inl (List.mem_filter.mp hgpx).2)
    · exact Or.inr (Or.inr (List.mem_filter.mp hf2).2)
  rcases hcase with hg | hg | hg
  · have he : extLower f = ".csv".toList := by
      rw [extLower_of_glob f "csv".toList (by decide) hg]
      decide
    refine ⟨Or.inl he, ?_⟩
    unfold dispatchFile summarizeByExt
    rw [he]
    rfl
  · have he : extLower f = ".gpx".toList := by
      rw [extLower_of_glob f "gpx".toList (by decide) hg]
      decide
    refine ⟨Or.inr (Or.inl he), ?_⟩
    unfold dispatchFile summarizeByExt
    rw [he]
    rfl
  · have he : extLower f = ".fit".toList := by
      rw [extLower_of_glob f "fit".toList (by decide) hg]
      decide
    refine ⟨Or.inr (Or.inr he), ?_⟩
    unfold dispatchFile summarizeByExt
    rw [he]
    rfl

/-- C10: every path the discovery globs produce carries the lowercase
extension `.csv`, `.gpx` or `.fit`, so the `Unsupported file type`
branch (`dispatchFile = none`) and the subsequent no-summaries exit are
unreachable; for a non-empty discovery list the summaries are exactly
one per discovered file, in discovery order. -/
theorem glob_dispatch_total :
    (∀ (env : Env) (f : String), f ∈ dataFiles env.dirFiles →
        (extLower f = ".csv".toList ∨ extLower f = ".gpx".toList ∨
          extLower f = ".fit".toList) ∧
        dispatchFile env f ≠ none) ∧
    (∀ (env : Env) (q : Option String) (today : String),
        dataFiles env.dirFiles ≠ [] →
        summariesList env = (dataFiles env.dirFiles).map (summarizeByExt env) ∧
        (mainRun env q today).1 ≠ .exitNoFiles ∧
        (mainRun env q today).1 ≠ .exitNoSummaries ∧
        (∀ f, Event.unsupportedFile f ∉ (mainRun env q today).2)) := by
  constructor
  · intro env f hf
    obtain ⟨hext, hd⟩ := dispatchFile_of_mem env f hf
    refine ⟨hext, ?_⟩
    rw [hd]
    exact fun hh => Option.noConfusion hh
  · intro env q today hne
    have hmap : summariesList env = (dataFiles env.dirFiles).map (summarizeByExt env) :=
      filterMap_eq_map_of_some _ _ _ (fun f hf => (dispatchFile_of_mem env f hf).2)
    have hfne : ¬ ((dataFiles env.dirFiles).isEmpty = true) :=
      fun hh => hne (List.isEmpty_iff.mp hh)
    have hsne : ¬ ((summariesList env).isEmpty = true) := by
      intro hh
      rw [List.isEmpty_iff, hmap] at hh
      exact hne (List.map_eq_nil_iff.mp hh)
    have hevs : ∀ f0, Event.unsupportedFile f0 ∉
        (dataFiles env.dirFiles).map (fun f => match dispatchFile env f with
          | some _ => Event.summarizedFile f
          | none => Event.unsupportedFile f) := by
      intro f0 hmem
      obtain ⟨f, hf, hfe⟩ := List.mem_map.mp hmem
      obtain ⟨-, hd⟩ := dispatchFile_of_mem env f hf
      rw [hd] at hfe
      exact Event.noConfusion hfe
    refine ⟨hmap, ?_, ?_, ?_⟩
    · simp only [mainRun]
      rw [if_neg hfne, if_neg hsne]
      cases hb : build_llm_prompt (summariesList env) q today <;> simp
    · simp only [mainRun]
      rw [if_neg hfne, if_neg hsne]
      cases hb : build_llm_prompt (summariesList env) q today <;> simp
    · intro f0
      simp only [mainRun]
      rw [if_neg hfne, if_neg hsne]
      cases hb : build_llm_prompt (summariesList env) q today with
      | error e => exact hevs f0
      | ok pr =>
        intro hmem
        rcases List.mem_append.mp hmem with hm | hm
        · exact hevs f0 hm
        · rw [List.mem_singleton] at hm
          exact Event.noConfusion hm

/-- Witness for C10 at the one-CSV directory. -/
theorem glob_dispatch_total_spot :
    ((extLower "health.csv" = ".csv".toList ∨ extLower "health.csv" = ".gpx".toList ∨
       extLower "health.csv" = ".fit".toList) ∧
     dispatchFile envC2 "health.csv" ≠ none) ∧
    (summariesList envC2 = (dataFiles envC2.dirFiles).map (summarizeByExt envC2) ∧
     (mainRun envC2 none "2024-06-01").1 ≠ .exitNoFiles ∧
     (mainRun envC2 none "2024-06-01").1 ≠ .exitNoSummaries ∧
     (∀ f, Event.unsupportedFile f ∉ (mainRun envC2 none "2024-06-01").2)) :=
  ⟨glob_dispatch_total.1 envC2 "health.csv" (by decide),
   glob_dispatch_total.2 envC2 none "2024-06-01" (by decide)⟩
